import Mathlib

/-!
# Verification of the mesos-dns resolver and configuration code

Shallow embedding of the Go sources:
* `src/resolver/resolver.go` — `cleanWild`, `formatSRV`, `formatAAAA`, `formatA`,
  `shuffleAnswers`, `HandleMesos`;
* `src/logging/logging.go` (the `records` package part) — `Config`, `Check`.

Go strings are modelled as Lean `String`; the `strings` standard-library
operations used by the source (`Contains`, `Replace` with count `-1`,
`ToLower`) are embedded as executable functions over `List Char`.
External I/O (`net.ResolveIPAddr`, `rand.Intn`, `GetLocalDNS`) is modelled
by explicit function parameters, so every theorem quantifies over the
possible behaviours of those collaborators.
-/

namespace MesosDNS

/-! ## Go `strings` operations -/

/-- One step of `strings.Replace(s, old, new, -1)` over character lists.
`fuel` bounds the recursion; `fuel = s.length` is always enough because each
step consumes at least one character of `s` (the source never calls `Replace`
with an empty pattern). -/
def replaceAllAux (pat rep : List Char) : Nat → List Char → List Char
  | 0, s => s
  | _ + 1, [] => []
  | fuel + 1, c :: rest =>
    if !pat.isEmpty && pat.isPrefixOf (c :: rest) then
      rep ++ replaceAllAux pat rep fuel ((c :: rest).drop pat.length)
    else
      c :: replaceAllAux pat rep fuel rest

/-- Go `strings.Replace(s, pat, rep, -1)`: replace every (non-overlapping,
leftmost-first) occurrence of `pat` in `s` by `rep`. -/
def replaceAll (s pat rep : String) : String :=
  ⟨replaceAllAux pat.data rep.data s.data.length s.data⟩

/-- Helper for Go `strings.Contains`: does `pat` occur as a contiguous
sublist? -/
def containsSubList (pat : List Char) : List Char → Bool
  | [] => pat.isEmpty
  | c :: rest => pat.isPrefixOf (c :: rest) || containsSubList pat rest

/-- Go `strings.Contains(s, pat)`. -/
def containsSub (s pat : String) : Bool :=
  containsSubList pat.data s.data

/-- ASCII lower-casing of one character (the fragment of Go
`strings.ToLower` exercised by this code base). -/
def charLower (c : Char) : Char :=
  if 'A' ≤ c && c ≤ 'Z' then Char.ofNat (c.toNat + 32) else c

/-- Go `strings.ToLower` restricted to ASCII letters. -/
def goToLower (s : String) : String :=
  ⟨s.data.map charLower⟩

/-- The string formed by the last character of `s` (Go `s[len(s)-1:]` for a
non-empty ASCII `s`); empty input yields the empty string, but the embedded
`Check` below treats that case as the run-time fault Go would raise. -/
def lastStr (s : String) : String :=
  ⟨s.data.drop (s.data.length - 1)⟩

/-! ## DNS data model (the fields of `miekg/dns` records that
`resolver.go` actually sets) -/

/-- An IPv4 address as four bytes, the result of a successful
`net.ResolveIPAddr("ip4", _)`. -/
structure IPv4 where
  b0 : Nat
  b1 : Nat
  b2 : Nat
  b3 : Nat
deriving DecidableEq, Repr

/-- An IPv6 address (byte list), the result of a successful
`net.ResolveIPAddr("ip6", _)`. -/
abbrev IPv6 := List Nat

/-- A DNS resource record, restricted to the three record kinds
`resolver.go` constructs, with exactly the fields it sets. -/
inductive RR where
  | rrA (name : String) (ttl : Nat) (addr : IPv4)
  | rrAAAA (name : String) (ttl : Nat) (addr : IPv6)
  | rrSRV (name : String) (ttl : Nat) (priority weight port : Nat) (target : String)
deriving DecidableEq, Repr

/-- The parts of a `dns.Msg` reply that `HandleMesos` writes: the Answer
section, the Authority (`Ns`) section, the response code and the
authoritative flag.  `SetReply` initialises `rcode` to 0. -/
structure Msg where
  answer : List RR
  ns : List RR
  rcode : Nat
  authoritative : Bool
deriving DecidableEq, Repr

/-- Constant `dns.TypeA`. -/
def typeA : Nat := 1
/-- Constant `dns.TypeNS`. -/
def typeNS : Nat := 2
/-- Constant `dns.TypeSOA`. -/
def typeSOA : Nat := 6
/-- Constant `dns.TypeAAAA`. -/
def typeAAAA : Nat := 28
/-- Constant `dns.TypeSRV`. -/
def typeSRV : Nat := 33
/-- Constant `dns.TypeANY`. -/
def typeANY : Nat := 255

/-- Go `uint32(x)` for `x : int`: wrap modulo 2^32 into `[0, 2^32)`. -/
def u32ofInt (x : Int) : Nat :=
  (x % (2 ^ 32 : Int)).toNat

/-! ## Configuration (`records.Config` from the source) -/

/-- Structure `records.Config` with the fields the verified code reads. -/
structure Config where
  Masters : List String
  RefreshSeconds : Int
  TTL : Int
  Port : Int
  Domain : String
  Resolvers : List String
  Timeout : Int
  File : String
  Email : String
  Mname : String
  Listener : String
  Verbose : Bool
  VeryVerbose : Bool
deriving DecidableEq, Repr

/-- Modelled from the spec: the `records.RecordGenerator` record set
(`records` package is not under `src/`).  Per spec §3 DATA MODEL it holds
`As : name → list of IPv4 strings` and `SRVs : name → list of host:port
strings`; both are Go maps, embedded as association lists. -/
structure RecordGenerator where
  As : List (String × List String)
  SRVs : List (String × List String)
deriving DecidableEq, Repr

/-- Go map indexing `m[k]` for a map of slices: the zero value `[]` when
the key is absent. -/
def mget (m : List (String × List String)) (k : String) : List String :=
  match m.find? (fun p => p.fst == k) with
  | some p => p.snd
  | none => []

/-- Structure `resolver.Resolver`: the record set plus the configuration. -/
structure Resolver where
  rs : RecordGenerator
  Config : Config

/-! ## `resolver.go` functions -/

/-- Function `cleanWild` from `resolver.go`: strip wildcards.  Note the source
removes every occurrence of the two-character substring `.*`. -/
def cleanWild (dom : String) : String :=
  if containsSub dom ".*" then replaceAll dom ".*" "" else dom

/-- Function `formatSRV` from `resolver.go`.  The source hard-codes `Port: 53` and
appends `"."` to the whole stored value. -/
def formatSRV (res : Resolver) (name target : String) : RR :=
  .rrSRV name (u32ofInt res.Config.TTL) 0 0 53 (target ++ ".")

/-- Function `formatA` from `resolver.go`; `resolve4` models
`net.ResolveIPAddr("ip4", target)`, `none` standing for an error (the
source then skips the record). -/
def formatA (resolve4 : String → Option IPv4) (res : Resolver)
    (dom target : String) : Option RR :=
  match resolve4 target with
  | some ip => some (.rrA dom (u32ofInt res.Config.TTL) ip)
  | none => none

/-- Function `formatAAAA` from `resolver.go`; `resolve6` models
`net.ResolveIPAddr("ip6", target)`. -/
def formatAAAA (resolve6 : String → Option IPv6) (res : Resolver)
    (dom target : String) : Option RR :=
  match resolve6 target with
  | some ip => some (.rrAAAA dom (u32ofInt res.Config.TTL) ip)
  | none => none

/-- The simultaneous assignment `answers[r], answers[i] = answers[i],
answers[r]` from `shuffleAnswers`; out-of-range indices leave the list
unchanged (the loop below only ever uses in-range indices, as the Go
code does). -/
def listSwap (l : List RR) (i j : Nat) : List RR :=
  match l[i]?, l[j]? with
  | some a, some b => (l.set i b).set j a
  | _, _ => l

/-- The loop of `shuffleAnswers`: at step `i` the source draws
`rand.Intn(n-i)`, a value in `[0, n-i)`; the random source is modelled by
`c`, reduced modulo `n - i` to respect that range.  `fuel` counts the
remaining iterations (`n - i`). -/
def shuffleAux (c : Nat → Nat) (n : Nat) : Nat → Nat → List RR → List RR
  | 0, _, l => l
  | fuel + 1, i, l => shuffleAux c n fuel (i + 1) (listSwap l i (i + c i % (n - i)))

/-- Function `shuffleAnswers` from `resolver.go`, parameterised by the values the
seeded `math/rand` source produces. -/
def shuffleAnswers (c : Nat → Nat) (answers : List RR) : List RR :=
  shuffleAux c answers.length answers.length 0 answers

/-- Function `HandleMesos` from `resolver.go`, as the reply message it writes for
the first question `(qname, qType)`.  `resolve4`/`resolve6` model
`net.ResolveIPAddr`, `c` the random source used by `shuffleAnswers`. -/
def handleMesos (resolve4 : String → Option IPv4) (resolve6 : String → Option IPv6)
    (c : Nat → Nat) (res : Resolver) (qname : String) (qType : Nat) : Msg :=
  let dom := cleanWild qname
  let ans : List RR :=
    if qType = typeSRV then
      (mget res.rs.SRVs dom).map (fun v => formatSRV res qname v)
    else if qType = typeAAAA then
      (mget res.rs.SRVs dom).filterMap (fun v => formatAAAA resolve6 res dom v)
    else if qType = typeA then
      (mget res.rs.SRVs dom).filterMap (fun v => formatA resolve4 res dom v)
    else if qType = typeANY then
      (mget res.rs.SRVs dom).flatMap (fun v =>
        (formatA resolve4 res qname v).toList
          ++ (formatAAAA resolve6 res dom v).toList
          ++ [formatSRV res dom v])
    else []
  { answer := shuffleAnswers c ans, ns := [], rcode := 0, authoritative := true }

/-! ## `records.Config.Check` from the source -/

/-- The possible outcomes of `Check`: an error return, a normal return
with the mutated configuration, or a run-time fault (the slice expression
`conf.Email[len(conf.Email)-1:]` faults when `Email` is empty). -/
inductive CheckResult where
  | checkErr (msg : String)
  | panicked
  | ok (conf : Config)
deriving DecidableEq, Repr

/-- Is the result a normal, error-free return? -/
def CheckResult.isOk : CheckResult → Bool
  | .ok _ => true
  | _ => false

/-- Is the result an error return? -/
def CheckResult.isErr : CheckResult → Bool
  | .checkErr _ => true
  | _ => false

/-- The statement `if conf.Email[len(conf.Email)-1:] != "." { conf.Email =
conf.Email + "." }` from `Check`, applied to the already-`@`-rewritten
email. -/
def fixEmail (e : String) : String :=
  if lastStr e ≠ "." then e ++ "." else e

/-- The tail of `Check` after the masters/port/resolvers steps: rewrite
`@` to `.` in `Email`, read its last character (a run-time fault when the
rewritten email is empty), lower-case `Domain` and derive `Mname`. -/
def checkEmailDomain (conf : Config) : CheckResult :=
  if (replaceAll conf.Email "@" ".").data = [] then
    .panicked
  else
    .ok { conf with
          Email := fixEmail (replaceAll conf.Email "@" "."),
          Domain := goToLower conf.Domain,
          Mname := "mesos-dns." ++ goToLower conf.Domain ++ "." }

/-- Function `Check` from the `records` package (in `src/logging/logging.go`).
`localDNS` models the value `GetLocalDNS()` would return when `Resolvers`
is empty (it reads `/etc/resolv.conf`, external I/O). -/
def goCheck (localDNS : List String) (conf : Config) : CheckResult :=
  if conf.Masters.length = 0 then
    .checkErr "masters no in file, environment or args"
  else if conf.Port < 0 ∨ conf.Port > 65535 then
    .checkErr "Port must be between 0-65535"
  else if conf.Resolvers.length = 0 then
    checkEmailDomain { conf with Resolvers := localDNS }
  else
    checkEmailDomain conf

/-! ## Concrete fixtures (record sets from the spec scenarios, §8) -/

/-- The configuration the test harness (`fakeDNS` in `resolver_test.go`)
uses. -/
def defaultConf : Config :=
  { Masters := ["144.76.157.37:5050"], RefreshSeconds := 60, TTL := 60,
    Port := 8053, Domain := "mesos", Resolvers := ["8.8.8.8"], Timeout := 5,
    File := "", Email := "root.mesos-dns.mesos.", Mname := "mesos-dns.mesos.",
    Listener := "127.0.0.1", Verbose := false, VeryVerbose := false }

/-- Record set of spec scenario 1: task `chronos` in framework
`marathon-0.6.0` on slave IP `10.141.141.10`, no ports. -/
def chronosRecords : RecordGenerator :=
  { As := [("chronos.marathon-0.6.0.mesos.", ["10.141.141.10"])], SRVs := [] }

/-- Resolver holding `chronosRecords`. -/
def chronosResolver : Resolver :=
  { rs := chronosRecords, Config := defaultConf }

/-- Record set with one SRV entry for `liquor-store` on port 31000
(spec scenario 2, one backend). -/
def liquorRecords : RecordGenerator :=
  { As := [("liquor-store.marathon-0.6.0.mesos.", ["10.141.141.10"])],
    SRVs := [("_liquor-store._udp.marathon-0.6.0.mesos.",
              ["liquor-store.marathon-0.6.0.mesos.:31000"])] }

/-- Resolver holding `liquorRecords`. -/
def liquorResolver : Resolver :=
  { rs := liquorRecords, Config := defaultConf }

/-- Record set whose SRV map has the key `ab.mesos.` (the sanitized name
a task called `a*b` would produce, `sanitize` stripping `*`). -/
def abRecords : RecordGenerator :=
  { As := [], SRVs := [("ab.mesos.", ["ab.mesos.:1000"])] }

/-- Resolver holding `abRecords`. -/
def abResolver : Resolver :=
  { rs := abRecords, Config := defaultConf }

/-- A valid configuration except that its email is the empty string. -/
def emptyEmailConf : Config :=
  { defaultConf with Port := 53, Email := "" }

/-- A valid configuration whose email contains an `@` and lacks the
trailing dot. -/
def goodEmailConf : Config :=
  { defaultConf with Port := 53, Email := "root@mesos-dns.mesos" }

/-- A concrete `net.ResolveIPAddr` behaviour: every resolution fails. -/
def noResolve4 : String → Option IPv4 := fun _ => none

/-- A concrete IPv6 resolution behaviour: every resolution fails (as it
does on the `host:port` strings this code passes in). -/
def noResolve6 : String → Option IPv6 := fun _ => none

/-- A concrete random source for the shuffle: always draw 0. -/
def zeroRand : Nat → Nat := fun _ => 0

/-- Modelled from the spec: the lookup-name rule of §4.D, "`lookup` =
`qname` with any literal `.*.` collapsed to `.`" (how the spec describes `cleanWild`). -/
def collapseWildSpec (dom : String) : String :=
  replaceAll dom ".*." "."

/-! ## Permutation properties of the shuffle -/

/-- Setting index `i` (which holds `a`) to `b` trades one occurrence of
`a` for one of `b` in the element counts. -/
lemma count_set_of_getElem (x b : RR) (l : List RR) :
    ∀ (i : Nat) (a : RR), l[i]? = some a →
      (l.set i b).count x + (if a = x then 1 else 0)
        = l.count x + (if b = x then 1 else 0) := by
  induction l with
  | nil => intro i a h; simp at h
  | cons hd t ih =>
    intro i a h
    cases i with
    | zero =>
      simp only [List.getElem?_cons_zero, Option.some.injEq] at h
      subst h
      simp only [List.set_cons_zero, List.count_cons, beq_iff_eq]
      by_cases hbx : b = x <;> by_cases hhx : hd = x <;> simp [hbx, hhx]
    | succ i =>
      simp only [List.getElem?_cons_succ] at h
      have e := ih i a h
      simp only [List.set_cons_succ, List.count_cons, beq_iff_eq]
      omega

/-- Swapping two positions never changes element counts. -/
lemma count_listSwap (x : RR) (l : List RR) (i j : Nat) :
    (listSwap l i j).count x = l.count x := by
  unfold listSwap
  split
  case _ a b hi hj =>
    have hjlt : j < l.length := by
      rcases List.getElem?_eq_some_iff.mp hj with ⟨h, _⟩
      exact h
    have hj2 : (l.set i b)[j]? = some b := by
      by_cases hij : i = j
      · subst hij
        simpa using List.getElem?_set_self hjlt
      · rw [List.getElem?_set_ne hij]
        exact hj
    have e1 := count_set_of_getElem x b l i a hi
    have e2 := count_set_of_getElem x a (l.set i b) j b hj2
    omega
  case _ => rfl

/-- Swapping via `listSwap` produces a permutation of the input. -/
lemma listSwap_perm (l : List RR) (i j : Nat) : (listSwap l i j).Perm l :=
  List.perm_iff_count.mpr (fun x => count_listSwap x l i j)

/-- Every pass of the shuffle loop permutes the list, whatever the random
draws are. -/
lemma shuffleAux_perm (c : Nat → Nat) (n : Nat) :
    ∀ (fuel i : Nat) (l : List RR), (shuffleAux c n fuel i l).Perm l := by
  intro fuel
  induction fuel with
  | zero => intro i l; exact List.Perm.refl l
  | succ f ih =>
    intro i l
    exact (ih (i + 1) (listSwap l i (i + c i % (n - i)))).trans
      (listSwap_perm l i (i + c i % (n - i)))

/-- The function `shuffleAnswers` returns a permutation of its input. -/
lemma shuffleAnswers_perm (c : Nat → Nat) (answers : List RR) :
    (shuffleAnswers c answers).Perm answers :=
  shuffleAux_perm c answers.length answers.length 0 answers

/-- The function `shuffleAnswers` preserves the length of the answer list. -/
lemma shuffleAnswers_length (c : Nat → Nat) (answers : List RR) :
    (shuffleAnswers c answers).length = answers.length :=
  (shuffleAnswers_perm c answers).length_eq

/-! ## Lemmas about the embedded `strings` operations -/

/-- If the pattern does not occur in the input, replacement is the
identity. -/
lemma replaceAllAux_of_not_contains (pat rep : List Char) :
    ∀ (fuel : Nat) (s : List Char), containsSubList pat s = false →
      replaceAllAux pat rep fuel s = s := by
  intro fuel
  induction fuel with
  | zero => intro s _; rfl
  | succ f ih =>
    intro s h
    cases s with
    | nil => rfl
    | cons ch rest =>
      rw [containsSubList, Bool.or_eq_false_iff] at h
      rw [replaceAllAux, h.1, Bool.and_false, if_neg (by simp), ih rest h.2]

/-- The function `cleanWild` is exactly removal of every `.*` substring. -/
lemma cleanWild_eq_replaceAll (q : String) : cleanWild q = replaceAll q ".*" "" := by
  unfold cleanWild
  by_cases h : containsSub q ".*"
  · rw [if_pos h]
  · rw [if_neg h]
    show q = String.mk (replaceAllAux ".*".data "".data q.data.length q.data)
    rw [replaceAllAux_of_not_contains ".*".data "".data q.data.length q.data
      (by simpa using h)]

/-- Replacement with a non-empty replacement string never turns a
non-empty string into an empty one. -/
lemma replaceAllAux_ne_nil (pat rep : List Char) (hrep : rep ≠ [])
    (fuel : Nat) (s : List Char) (hs : s ≠ []) :
    replaceAllAux pat rep fuel s ≠ [] := by
  cases fuel with
  | zero => exact hs
  | succ f =>
    cases s with
    | nil => exact absurd rfl hs
    | cons ch rest =>
      rw [replaceAllAux]
      split
      · simp [hrep]
      · simp

/-- The `@`-to-`.` rewrite in `Check` keeps a non-empty email
non-empty. -/
lemma replaceAll_email_ne_nil (e : String) (h : e ≠ "") :
    (replaceAll e "@" ".").data ≠ [] := by
  have hd : e.data ≠ [] := fun hnil => h (String.ext hnil)
  exact replaceAllAux_ne_nil "@".data ".".data (by decide) e.data.length e.data hd

/-- After `fixEmail`, the last character is always a dot. -/
lemma lastStr_fixEmail (e : String) : lastStr (fixEmail e) = "." := by
  unfold fixEmail
  by_cases h : lastStr e = "."
  · rw [if_neg (by simpa using h)]
    exact h
  · rw [if_pos h]
    show String.mk ((e.data ++ ['.']).drop ((e.data ++ ['.']).length - 1)) = "."
    rw [List.drop_left' (show e.data.length = (e.data ++ ['.']).length - 1 by simp)]

/-! ## `Check` result shape -/

/-- The tail of `Check` past the masters/port validations never returns an error. -/
lemma checkEmailDomain_isErr (conf : Config) :
    (checkEmailDomain conf).isErr = false := by
  unfold checkEmailDomain
  split <;> rfl

/-- With a non-empty email, `Check` past the validations returns
normally. -/
lemma checkEmailDomain_isOk (conf : Config) (h : conf.Email ≠ "") :
    (checkEmailDomain conf).isOk = true := by
  unfold checkEmailDomain
  rw [if_neg (replaceAll_email_ne_nil conf.Email h)]
  rfl

/-! ## Claim theorems -/

/-- C6: for every list of answer records (and every behaviour of the
random source), `shuffleAnswers` returns a permutation of its input: the
multiset of records is unchanged, and in particular so is the length. -/
theorem C6_shuffleAnswers_permutes (c : Nat → Nat) (answers : List RR) :
    (shuffleAnswers c answers).Perm answers ∧
    (shuffleAnswers c answers).length = answers.length :=
  ⟨shuffleAnswers_perm c answers, shuffleAnswers_length c answers⟩

/-- C1 (code bug): with the record set of spec scenario 1 — the queried
name is a key of `As` with exactly one IP — `HandleMesos` answers the A
query with an empty Answer section, for every possible behaviour of
`net.ResolveIPAddr` and of the random source: the handler reads
`rs.SRVs[dom]`, never `rs.As`. -/
theorem C1_A_answers_ignore_As (resolve4 : String → Option IPv4)
    (resolve6 : String → Option IPv6) (c : Nat → Nat) :
    mget chronosResolver.rs.As "chronos.marathon-0.6.0.mesos." = ["10.141.141.10"] ∧
    (handleMesos resolve4 resolve6 c chronosResolver
      "chronos.marathon-0.6.0.mesos." typeA).answer = [] :=
  ⟨rfl, rfl⟩

/-- C3 (code bug): for the AAAA query on a name absent from the record
set, `HandleMesos` replies RCODE 0 (the claim and the test
`resolver_test.go` demand NXDOMAIN, RCODE 3); no SOA is placed in the
Authority section either. -/
theorem C3_AAAA_missing_name_not_nxdomain (resolve4 : String → Option IPv4)
    (resolve6 : String → Option IPv6) (c : Nat → Nat) :
    mget chronosResolver.rs.As "missing.mesos." = [] ∧
    mget chronosResolver.rs.SRVs "missing.mesos." = [] ∧
    (handleMesos resolve4 resolve6 c chronosResolver "missing.mesos." typeAAAA).rcode = 0 ∧
    (handleMesos resolve4 resolve6 c chronosResolver "missing.mesos." typeAAAA).ns = [] :=
  ⟨rfl, rfl, rfl, rfl⟩

/-- C4 (code bug): for an A query on a name that exists nowhere in the
record set, `HandleMesos` replies RCODE 0 with an empty Authority section
(the claim and `resolver_test.go` demand RCODE 3 with an SOA). -/
theorem C4_missing_name_not_nxdomain (resolve4 : String → Option IPv4)
    (resolve6 : String → Option IPv6) (c : Nat → Nat) :
    mget chronosResolver.rs.As "missing.mesos." = [] ∧
    mget chronosResolver.rs.SRVs "missing.mesos." = [] ∧
    (handleMesos resolve4 resolve6 c chronosResolver "missing.mesos." typeA).rcode = 0 ∧
    (handleMesos resolve4 resolve6 c chronosResolver "missing.mesos." typeA).ns = [] ∧
    (handleMesos resolve4 resolve6 c chronosResolver "missing.mesos." typeA).answer = [] :=
  ⟨rfl, rfl, rfl, rfl, rfl⟩

/-- C7 (code bug): `HandleMesos` has no SOA branch: an SOA query for an
in-domain name falls into the empty default case, producing an empty
Answer section and an empty Authority section (the claim demands one SOA
answer with `Mname`/`Rname`; `resolver_test.go` demands a non-empty `Ns`
field). The RCODE is 0 as claimed. -/
theorem C7_SOA_query_unanswered (resolve4 : String → Option IPv4)
    (resolve6 : String → Option IPv6) (c : Nat → Nat) :
    (handleMesos resolve4 resolve6 c chronosResolver "non-existing.mesos." typeSOA).answer = [] ∧
    (handleMesos resolve4 resolve6 c chronosResolver "non-existing.mesos." typeSOA).ns = [] ∧
    (handleMesos resolve4 resolve6 c chronosResolver "non-existing.mesos." typeSOA).rcode = 0 :=
  ⟨rfl, rfl, rfl⟩

/-- C2 (code bug): for the SRV query whose stored value is
`liquor-store.marathon-0.6.0.mesos.:31000`, the single SRV answer carries
the hard-coded port 53 — not the port 31000 parsed from the value — and
its target is the whole `host:port` value with a dot appended, not the
host part.  (Priority 0, weight 0 and the TTL are as claimed.) -/
theorem C2_SRV_port_hardcoded (resolve4 : String → Option IPv4)
    (resolve6 : String → Option IPv6) (c : Nat → Nat) :
    (handleMesos resolve4 resolve6 c liquorResolver
      "_liquor-store._udp.marathon-0.6.0.mesos." typeSRV).answer
      = [RR.rrSRV "_liquor-store._udp.marathon-0.6.0.mesos." 60 0 0 53
          "liquor-store.marathon-0.6.0.mesos.:31000."] :=
  List.Perm.eq_singleton (shuffleAnswers_perm c _)

/-- C5 (code bug): `HandleMesos` never lower-cases the queried name, so
matching is case sensitive: the lowercase SRV query finds one record
while its case-variant finds none — the answer sets differ in more than
the `Name` field. -/
theorem C5_matching_case_sensitive (resolve4 : String → Option IPv4)
    (resolve6 : String → Option IPv6) (c : Nat → Nat) :
    (handleMesos resolve4 resolve6 c liquorResolver
      "_liquor-store._udp.marathon-0.6.0.mesos." typeSRV).answer.length = 1 ∧
    (handleMesos resolve4 resolve6 c liquorResolver
      "_lIqUoR-sToRe._Udp.MARATHON-0.6.0.mesoS." typeSRV).answer.length = 0 :=
  ⟨(shuffleAnswers_length c _).trans rfl, rfl⟩

/-- C8 counterexample: the claimed rule — collapse any literal `.*.` to
`.` — disagrees with `cleanWild`, which removes every `.*` substring: on
the query name `a.*b.mesos.` (which contains `.*` but no `.*.`) the
collapse rule is the identity, yet the handler looks up `ab.mesos.` and
answers from it. -/
theorem C8_counterexample :
    collapseWildSpec "a.*b.mesos." = "a.*b.mesos." ∧
    cleanWild "a.*b.mesos." = "ab.mesos." ∧
    cleanWild "a.*b.mesos." ≠ collapseWildSpec "a.*b.mesos." ∧
    mget abResolver.rs.SRVs (collapseWildSpec "a.*b.mesos.") = [] ∧
    (handleMesos noResolve4 noResolve6 zeroRand abResolver
      "a.*b.mesos." typeSRV).answer.length = 1 := by
  refine ⟨rfl, rfl, ?_, rfl, rfl⟩
  decide

/-- C8 amended: for every in-domain query, the name used for record
lookup is the query name with every literal `.*` substring removed (which
collapses `.*.` infixes to `.`); in particular a type-A query for
`bob.*.mesos.` is answered exactly as one for `bob.mesos.`. -/
theorem C8_wildcard_strip (resolve4 : String → Option IPv4)
    (resolve6 : String → Option IPv6) (c : Nat → Nat) (res : Resolver) :
    (∀ q : String, cleanWild q = replaceAll q ".*" "") ∧
    handleMesos resolve4 resolve6 c res "bob.*.mesos." typeA
      = handleMesos resolve4 resolve6 c res "bob.mesos." typeA :=
  ⟨cleanWild_eq_replaceAll, rfl⟩

/-- C9 counterexample: a configuration with one master and port 53 but an
empty email makes `Check` fault (reading the last character of the empty
email) — it neither reports success nor returns an error, refuting "with
non-empty Masters and an in-range Port it reports success". -/
theorem C9_counterexample :
    emptyEmailConf.Masters ≠ [] ∧
    emptyEmailConf.Port = 53 ∧
    goCheck ["8.8.8.8"] emptyEmailConf = CheckResult.panicked ∧
    (goCheck ["8.8.8.8"] emptyEmailConf).isOk = false ∧
    (goCheck ["8.8.8.8"] emptyEmailConf).isErr = false := by
  refine ⟨?_, rfl, rfl, rfl, rfl⟩
  decide

/-- C9 amended: `Check` returns an error if and only if the Masters list
is empty or the Port lies outside 0–65535; with non-empty Masters, an
in-range Port and a non-empty Email it reports success (with an empty
Email it faults instead of returning). -/
theorem C9_check_error_iff (localDNS : List String) (conf : Config) :
    ((goCheck localDNS conf).isErr = true ↔
      (conf.Masters = [] ∨ conf.Port < 0 ∨ conf.Port > 65535)) ∧
    (conf.Masters ≠ [] → 0 ≤ conf.Port → conf.Port ≤ 65535 → conf.Email ≠ "" →
      (goCheck localDNS conf).isOk = true) := by
  constructor
  · by_cases h1 : conf.Masters.length = 0
    · have hm : conf.Masters = [] := List.length_eq_zero.mp h1
      simp [goCheck, h1, hm, CheckResult.isErr]
    · have hm : ¬ conf.Masters = [] := fun he => h1 (by simp [he])
      by_cases h2 : conf.Port < 0 ∨ conf.Port > 65535
      · rcases h2 with h2 | h2 <;> simp [goCheck, h1, h2, hm, CheckResult.isErr]
      · rw [not_or] at h2
        by_cases h3 : conf.Resolvers.length = 0 <;>
          simp [goCheck, h1, h2.1, h2.2, h3, hm, checkEmailDomain_isErr]
  · intro hm hp1 hp2 hem
    have h1 : ¬ conf.Masters.length = 0 := by simp [List.length_eq_zero, hm]
    have h2 : ¬ (conf.Port < 0 ∨ conf.Port > 65535) := by omega
    unfold goCheck
    rw [if_neg h1, if_neg h2]
    by_cases h3 : conf.Resolvers.length = 0
    · rw [if_pos h3]
      exact checkEmailDomain_isOk _ hem
    · rw [if_neg h3]
      exact checkEmailDomain_isOk _ hem

/-- C9 witness: on a concrete valid configuration, `Check` reports
success. -/
theorem C9_check_error_iff_witness :
    (goCheck ["8.8.8.8"] goodEmailConf).isOk = true :=
  (C9_check_error_iff ["8.8.8.8"] goodEmailConf).2
    (by decide) (by decide) (by decide) (by decide)

/-- C10: with non-empty Masters, an in-range Port, non-empty Resolvers
and a non-empty Email, `Check` returns normally; the resulting email has
every `@` replaced by `.` and ends with a trailing `.`.  The non-empty
email really is a precondition: with an empty email, `Check` faults when
reading the last character of the email. -/
theorem C10_check_normalizes_email :
    (∀ (localDNS : List String) (conf : Config),
      conf.Masters ≠ [] → 0 ≤ conf.Port → conf.Port ≤ 65535 →
      conf.Resolvers ≠ [] → conf.Email ≠ "" →
      ∃ c2, goCheck localDNS conf = CheckResult.ok c2 ∧
        c2.Email = fixEmail (replaceAll conf.Email "@" ".") ∧
        lastStr c2.Email = ".") ∧
    goCheck ["8.8.8.8"] emptyEmailConf = CheckResult.panicked := by
  constructor
  · intro localDNS conf hm hp1 hp2 hr hem
    have h1 : ¬ conf.Masters.length = 0 := by simp [List.length_eq_zero, hm]
    have h2 : ¬ (conf.Port < 0 ∨ conf.Port > 65535) := by omega
    have h3 : ¬ conf.Resolvers.length = 0 := by simp [List.length_eq_zero, hr]
    refine ⟨{ conf with
              Email := fixEmail (replaceAll conf.Email "@" "."),
              Domain := goToLower conf.Domain,
              Mname := "mesos-dns." ++ goToLower conf.Domain ++ "." },
            ?_, rfl, lastStr_fixEmail _⟩
    unfold goCheck checkEmailDomain
    rw [if_neg h1, if_neg h2, if_neg h3,
      if_neg (replaceAll_email_ne_nil conf.Email hem)]
  · rfl

/-- C10 witness: the concrete configuration with email
`root@mesos-dns.mesos` passes `Check` and comes out as
`root.mesos-dns.mesos.`. -/
theorem C10_check_normalizes_email_witness :
    ∃ c2, goCheck ["8.8.8.8"] goodEmailConf = CheckResult.ok c2 ∧
      c2.Email = fixEmail (replaceAll goodEmailConf.Email "@" ".") ∧
      lastStr c2.Email = "." :=
  C10_check_normalizes_email.1 ["8.8.8.8"] goodEmailConf
    (by decide) (by decide) (by decide) (by decide) (by decide)

end MesosDNS
